import Mathlib

/-!
Shallow embedding of `src/controllers/etudiantController.js`.

The controller is a set of stateless handlers over a MongoDB/Mongoose store.
We model the store as a `List Etudiant` (its document collection, in store
order) and each handler as a pure function from its request inputs and the
store (or the outcome of the one persistence call it makes, as an `Except`)
to a `Response` — the JSON envelope together with the HTTP status code.

External collaborators that are not part of the repository (the Mongoose
library and the JavaScript `RegExp` / `parseInt` / `parseFloat` builtins) are
modelled explicitly; each such definition carries a doc comment saying what
it models.
-/

/-- A student document as stored by the persistence collaborator: the fields
named by the schema (`models/Etudiant.js`) and used by the controller, plus
the store-generated identifier `_id` (here `id`). -/
structure Etudiant where
  id : String
  nom : String
  prenom : String
  email : String
  filiere : String
  annee : Int
  moyenne : Rat
  actif : Bool
deriving Repr, DecidableEq

/-- The query-string inputs read by `advancedSearch`
(`const { nom, filiere, anneeMin, anneeMax, moyenneMin } = req.query`);
`none` models an absent query parameter. -/
structure AdvQuery where
  nom : Option String
  filiere : Option String
  anneeMin : Option String
  anneeMax : Option String
  moyenneMin : Option String
deriving Repr, DecidableEq

/-- The response envelope: HTTP status code plus the JSON object built by
`res.status(...).json({...})`. Fields absent from a given handler's object
stay `none`. `data` holds array results, `record` a single-document result. -/
structure Response where
  status : Nat
  success : Bool
  message : Option String := none
  error : Option String := none
  count : Option Nat := none
  data : Option (List Etudiant) := none
  record : Option Etudiant := none
  query : Option String := none
  filiere : Option String := none
  sortBy : Option String := none
  order : Option String := none
  filtersEcho : Option AdvQuery := none
deriving Repr, DecidableEq

/-- Modelled from the spec: JavaScript truthiness of an optional string input
(`if (q)`): an absent parameter (`undefined`) and the empty string are falsy,
every other string is truthy. -/
def jsTruthy : Option String → Bool
  | none => false
  | some s => s != ""

/-- Case-insensitive character comparison: the effect of the JavaScript
`RegExp` flag `'i'` used by the controller (`new RegExp(q, 'i')`). -/
def eqCI (a b : Char) : Bool := a.toLower == b.toLower

/-- Modelled from the spec: the JavaScript `RegExp` collaborator (a builtin,
not repository code), restricted to patterns made of literal characters and
the `.` wildcard. `matchHere p t` decides whether pattern `p` matches a
leading segment of text `t`: a literal pattern character matches
case-insensitively, `.` matches any character. -/
def matchHere : List Char → List Char → Bool
  | [], _ => true
  | _ :: _, [] => false
  | p :: ps, c :: cs => (p == '.' || eqCI p c) && matchHere ps cs

/-- Unanchored regex search, as JavaScript `regex.test` / Mongo regex
matching: the pattern may match starting at any position of the text. -/
def searchFrom (p : List Char) : List Char → Bool
  | [] => matchHere p []
  | c :: cs => matchHere p (c :: cs) || searchFrom p cs

/-- Case-insensitive regex test of a pattern string against a text string,
modelling `new RegExp(pat, 'i')` applied to `text` (restricted to the
literal-plus-dot fragment). -/
def regexTest (pat text : String) : Bool := searchFrom pat.toList text.toList

/-- Spec-side predicate (from the spec words, for comparison with the code):
`q` matches a leading segment of `t` literally, case-insensitively. -/
def beginsCI : List Char → List Char → Bool
  | [], _ => true
  | _ :: _, [] => false
  | q :: qs, c :: cs => eqCI q c && beginsCI qs cs

/-- Spec-side predicate: `q` occurs literally, case-insensitively, at some
position of `t`. -/
def subFromCI (q : List Char) : List Char → Bool
  | [] => beginsCI q []
  | c :: cs => beginsCI q (c :: cs) || subFromCI q cs

/-- Spec-side predicate (from the spec words): `q` is a case-insensitive
literal substring of `s`. -/
def subCI (q s : String) : Bool := subFromCI q.toList s.toList

/-- The Mongo filter of `searchEtudiants`:
`{ actif: true, $or: [{ nom: regex }, { prenom: regex }] }`. -/
def searchMatch (q : String) (e : Etudiant) : Bool :=
  e.actif && (regexTest q e.nom || regexTest q e.prenom)

/-- Handler `searchEtudiants` (GET /api/etudiants/search?q=...): a falsy `q`
returns 400 before the store is consulted; otherwise the one `find` call is
made, whose failure is the `catch` path (500) and whose success yields the
200 envelope with `count`, the echoed `query` and `data`. -/
def searchEtudiants (q : Option String) (store : Except String (List Etudiant)) : Response :=
  if !jsTruthy q then
    { status := 400, success := false,
      message := some "Le paramètre de recherche q est obligatoire" }
  else
    match store with
    | .error msg =>
      { status := 500, success := false, message := some "Erreur serveur", error := some msg }
    | .ok l =>
      let qs := q.getD ""
      let etudiants := l.filter (searchMatch qs)
      { status := 200, success := true, count := some etudiants.length,
        query := some qs, data := some etudiants }

/-- Hexadecimal digit test, for the ObjectId format. -/
def isHexDigit (c : Char) : Bool :=
  (decide ('0' ≤ c) && decide (c ≤ '9'))
  || (decide ('a' ≤ c) && decide (c ≤ 'f'))
  || (decide ('A' ≤ c) && decide (c ≤ 'F'))

/-- Modelled from the spec: the store's identifier format (MongoDB ObjectId,
a 24-character hexadecimal string). The schema module `models/Etudiant.js`
and the Mongoose library are collaborators outside `src/`. -/
def isValidObjectId (s : String) : Bool :=
  s.length == 24 && s.toList.all isHexDigit

/-- Modelled from the spec: the collaborator's lookup-by-identifier
(`Etudiant.findById`). A malformed identifier throws (Mongoose CastError),
modelled as `Except.error`; a well-formed identifier yields the first
document with that `_id`, or `none`. -/
def findByIdModel (id : String) (store : List Etudiant) : Except String (Option Etudiant) :=
  if isValidObjectId id then .ok (store.find? (fun e => e.id == id))
  else .error "CastError"

/-- Handler `getEtudiantById` (GET /api/etudiants/:id): a thrown lookup is
caught and becomes 500; an empty lookup becomes 404; a found document becomes
200 with the record. -/
def getEtudiantById (id : String) (store : List Etudiant) : Response :=
  match findByIdModel id store with
  | .error msg =>
    { status := 500, success := false, message := some "Erreur serveur", error := some msg }
  | .ok none =>
    { status := 404, success := false, message := some "Étudiant non trouvé" }
  | .ok (some e) =>
    { status := 200, success := true, record := some e }

/-- An error thrown by `Etudiant.create`: Mongoose errors carry an optional
numeric `code` (11000 for a duplicate unique key) and a `message`. -/
structure CreateErr where
  code : Option Int
  message : String
deriving Repr, DecidableEq

/-- The duplicate pre-check of `createEtudiant`:
`Etudiant.findOne({ nom: req.body.nom, prenom: req.body.prenom })` finds a
document iff some stored document matches both fields exactly (no `actif`
condition). -/
def dupNomPrenom (body : Etudiant) (store : List Etudiant) : Bool :=
  store.any (fun e => e.nom == body.nom && e.prenom == body.prenom)

/-- Handler `createEtudiant` (POST /api/etudiants). `insertResult` is the
outcome of the `Etudiant.create(req.body)` call (schema validation lives in
the collaborator): on the duplicate pre-check the handler returns 400 without
inserting; on insert success it returns 201 and the store gains the document;
a thrown insert error with `code === 11000` yields the duplicate-email 400
with no `error` field, any other thrown error yields the generic 400 with the
underlying message in `error`. Returns the response and the resulting store. -/
def createEtudiant (body : Etudiant) (store : List Etudiant)
    (insertResult : Except CreateErr Etudiant) : Response × List Etudiant :=
  if dupNomPrenom body store then
    ({ status := 400, success := false,
       message := some "Un étudiant avec ce nom et ce prénom existe déjà" }, store)
  else
    match insertResult with
    | .ok e =>
      ({ status := 201, success := true, message := some "Étudiant créé avec succès",
         record := some e }, store ++ [e])
    | .error err =>
      if err.code == some 11000 then
        ({ status := 400, success := false, message := some "Cet email existe déjà" }, store)
      else
        ({ status := 400, success := false, message := some "Données invalides",
           error := some err.message }, store)

/-- Modelled from the spec: the collaborator's
`findByIdAndUpdate(id, { actif: false }, { new: true })` at the document
level: the first document whose `_id` matches has `actif` set to `false`,
and the post-update document is returned. -/
def findByIdAndUpdateActifFalse (id : String) : List Etudiant → Option Etudiant × List Etudiant
  | [] => (none, [])
  | e :: es =>
    if e.id == id then (some { e with actif := false }, { e with actif := false } :: es)
    else
      let r := findByIdAndUpdateActifFalse id es
      (r.1, e :: r.2)

/-- Handler `deleteEtudiant` (DELETE /api/etudiants/:id), the soft delete: a
malformed identifier throws and is caught (500); an empty update result is
404; otherwise 200 with the deactivation message and the post-update record.
Returns the response and the resulting store. -/
def deleteEtudiant (id : String) (store : List Etudiant) : Response × List Etudiant :=
  if isValidObjectId id then
    match findByIdAndUpdateActifFalse id store with
    | (none, s) =>
      ({ status := 404, success := false, message := some "Étudiant non trouvé" }, s)
    | (some e, s) =>
      ({ status := 200, success := true,
         message := some "Étudiant désactivé avec succès", record := some e }, s)
  else
    ({ status := 500, success := false, message := some "Erreur serveur",
       error := some "CastError" }, store)

/-- Numeric value of a digit character. -/
def digitVal (c : Char) : Nat := c.toNat - 48

/-- Decimal value of a digit list, most significant digit first. -/
def natOfDigits (l : List Char) : Nat := l.foldl (fun acc c => acc * 10 + digitVal c) 0

/-- Modelled from the spec: the JavaScript `parseInt` builtin, restricted to
plain decimal inputs (optional sign, then the longest run of leading digits).
`none` models the `NaN` result when no digits can be read. -/
def jsParseInt (s : String) : Option Int :=
  let p : Int × List Char :=
    match s.toList with
    | '-' :: t => (-1, t)
    | '+' :: t => (1, t)
    | t => (1, t)
  let ds := p.2.takeWhile Char.isDigit
  if ds.isEmpty then none else some (p.1 * (natOfDigits ds : Int))

/-- Modelled from the spec: the JavaScript `parseFloat` builtin, restricted
to plain decimal inputs (optional sign, digits, optional point and fraction
digits). `none` models the `NaN` result when no digits can be read. -/
def jsParseFloat (s : String) : Option Rat :=
  let p : Rat × List Char :=
    match s.toList with
    | '-' :: t => (-1, t)
    | '+' :: t => (1, t)
    | t => (1, t)
  let ip := p.2.takeWhile Char.isDigit
  match p.2.dropWhile Char.isDigit with
  | '.' :: t =>
    let fp := t.takeWhile Char.isDigit
    if ip.isEmpty && fp.isEmpty then none
    else some (p.1 * ((natOfDigits ip : Rat) + (natOfDigits fp : Rat) / ((10 : Rat) ^ fp.length)))
  | _ => if ip.isEmpty then none else some (p.1 * (natOfDigits ip : Rat))

/-- The nested `annee` object of the advanced-search filter
(`filter.annee = {}` then conditionally `$gte` and `$lte`): the outer
`Option` is presence of the bound key, the inner `Option Int` is the
`parseInt` result (`none` = `NaN`). -/
structure AnneeCond where
  gte : Option (Option Int)
  lte : Option (Option Int)
deriving Repr, DecidableEq

/-- The Mongo filter object built by `advancedSearch`: each `Option` field is
a key that is present or absent in the filter object. `nom` holds the regex
pattern source (matched case-insensitively), `moyenne` the `$gte` bound
(`none` inside = `NaN`). -/
structure MongoFilter where
  actif : Bool
  nom : Option String
  filiere : Option String
  annee : Option AnneeCond
  moyenne : Option (Option Rat)
deriving Repr, DecidableEq

/-- MongoFilter construction of `advancedSearch`, line for line:
`let filter = { actif: true }`, then each key is added only when its input is
truthy; the `annee` object exists when either bound input is truthy. -/
def buildAdvancedFilter (q : AdvQuery) : MongoFilter :=
  { actif := true
    nom := if jsTruthy q.nom then some (q.nom.getD "") else none
    filiere := if jsTruthy q.filiere then some (q.filiere.getD "") else none
    annee :=
      if jsTruthy q.anneeMin || jsTruthy q.anneeMax then
        some { gte := if jsTruthy q.anneeMin then some (jsParseInt (q.anneeMin.getD "")) else none
               lte := if jsTruthy q.anneeMax then some (jsParseInt (q.anneeMax.getD "")) else none }
      else none
    moyenne := if jsTruthy q.moyenneMin then some (jsParseFloat (q.moyenneMin.getD "")) else none }

/-- Mongo `$gte` on `annee`: a `NaN` bound (inner `none`) matches no stored
integer value. -/
def gteInt (b : Option Int) (v : Int) : Bool :=
  match b with
  | none => false
  | some x => decide (x ≤ v)

/-- Mongo `$lte` on `annee`: a `NaN` bound matches no stored integer value. -/
def lteInt (b : Option Int) (v : Int) : Bool :=
  match b with
  | none => false
  | some x => decide (v ≤ x)

/-- Mongo `$gte` on `moyenne`: a `NaN` bound matches no stored numeric
value. -/
def gteRat (b : Option Rat) (v : Rat) : Bool :=
  match b with
  | none => false
  | some x => decide (x ≤ v)

/-- Mongo evaluation of the advanced-search filter against one document: all
present keys must hold (conjunction); an absent key constrains nothing. -/
def matchesFilter (f : MongoFilter) (e : Etudiant) : Bool :=
  (e.actif == f.actif)
  && (match f.nom with | none => true | some pat => regexTest pat e.nom)
  && (match f.filiere with | none => true | some v => e.filiere == v)
  && (match f.annee with
      | none => true
      | some c =>
        (match c.gte with | none => true | some b => gteInt b e.annee)
        && (match c.lte with | none => true | some b => lteInt b e.annee))
  && (match f.moyenne with | none => true | some b => gteRat b e.moyenne)

/-- Handler `advancedSearch` (GET /api/etudiants?nom=&filiere=&...): builds
the filter, runs the one `find` call, and returns 200 with `count`, the
echoed query map and `data`; the only failure path is the `catch` (500) when
the persistence call itself fails. -/
def advancedSearch (q : AdvQuery) (store : Except String (List Etudiant)) : Response :=
  match store with
  | .error msg =>
    { status := 500, success := false, message := some "Erreur serveur", error := some msg }
  | .ok l =>
    let etudiants := l.filter (matchesFilter (buildAdvancedFilter q))
    { status := 200, success := true, count := some etudiants.length,
      filtersEcho := some q, data := some etudiants }

/-- A BSON value of one of the types a student field can carry, for the
store's sort comparison; `null` stands for a missing field. -/
inductive MVal where
  | null
  | num (q : Rat)
  | str (s : String)
  | bval (b : Bool)
deriving Repr, DecidableEq

/-- BSON type rank used by the store's cross-type sort order:
null < numbers < strings < booleans. -/
def MVal.rank : MVal → Nat
  | .null => 0
  | .num _ => 1
  | .str _ => 2
  | .bval _ => 3

/-- Modelled from the spec: the store's sort comparison on field values —
by type rank across types, by the type's order within a type
(`false < true` for booleans). -/
def mle (a b : MVal) : Bool :=
  match a, b with
  | .num x, .num y => decide (x ≤ y)
  | .str x, .str y => decide (x ≤ y)
  | .bval x, .bval y => !x || y
  | _, _ => decide (a.rank ≤ b.rank)

/-- The value a student document carries under a dynamic field name, as the
store's sort would read it (an unknown field is missing, hence `null`). -/
def fieldKey (f : String) (e : Etudiant) : MVal :=
  if f == "nom" then .str e.nom
  else if f == "prenom" then .str e.prenom
  else if f == "email" then .str e.email
  else if f == "filiere" then .str e.filiere
  else if f == "annee" then .num (e.annee : Rat)
  else if f == "moyenne" then .num e.moyenne
  else if f == "actif" then .bval e.actif
  else if f == "_id" then .str e.id
  else .null

/-- Sort-criterion construction of `getEtudiantsSorted`, line for line:
`const sortOptions = {}` stays empty unless `sortBy` is truthy, in which case
the single criterion is `sortOptions[sortBy] = order === 'desc' ? -1 : 1`
(the Boolean is the descending flag). -/
def buildSortOptions (sortBy order : Option String) : Option (String × Bool) :=
  if jsTruthy sortBy then some (sortBy.getD "", decide (order = some "desc")) else none

/-- Modelled from the spec: the store's `.sort(sortOptions)` — the empty
criterion object leaves store order; a single criterion reorders the result
by the field's value, ascending or descending. -/
def applySort (so : Option (String × Bool)) (l : List Etudiant) : List Etudiant :=
  match so with
  | none => l
  | some (f, desc) =>
    if desc then l.mergeSort (fun a b => mle (fieldKey f b) (fieldKey f a))
    else l.mergeSort (fun a b => mle (fieldKey f a) (fieldKey f b))

/-- Handler `getEtudiantsSorted` (GET /api/etudiants?sortBy=&order=):
`find({ actif: true }).sort(sortOptions)`, then 200 with `count`, the echoed
`sortBy` and `order`, and `data`; a failed persistence call is the `catch`
path (500). -/
def getEtudiantsSorted (sortBy order : Option String) (store : Except String (List Etudiant)) : Response :=
  match store with
  | .error msg =>
    { status := 500, success := false, message := some "Erreur serveur", error := some msg }
  | .ok l =>
    let etudiants := applySort (buildSortOptions sortBy order) (l.filter (fun e => e.actif))
    { status := 200, success := true, count := some etudiants.length,
      sortBy := sortBy, order := order, data := some etudiants }

/-- Handler `getEtudiantsByFiliere` (GET /api/etudiants/filiere/:filiere):
the filter is `{ filiere: req.params.filiere }` alone — no `actif`
condition. -/
def getEtudiantsByFiliere (filiere : String) (store : Except String (List Etudiant)) : Response :=
  match store with
  | .error msg =>
    { status := 500, success := false, message := some "Erreur serveur", error := some msg }
  | .ok l =>
    let etudiants := l.filter (fun e => e.filiere == filiere)
    { status := 200, success := true, count := some etudiants.length,
      filiere := some filiere, data := some etudiants }

/-! Helper lemmas. -/

/-- On a pattern without the dot wildcard, anchored regex matching is exactly
literal case-insensitive matching of a leading segment. -/
theorem matchHere_eq_beginsCI (p : List Char) (hp : '.' ∉ p) :
    ∀ t : List Char, matchHere p t = beginsCI p t := by
  induction p with
  | nil => intro t; cases t <;> rfl
  | cons a ps ih =>
    intro t
    cases t with
    | nil => rfl
    | cons c cs =>
      have ha : a ≠ '.' := fun h => hp (h ▸ List.mem_cons_self a ps)
      have hps : '.' ∉ ps := fun h => hp (List.mem_cons_of_mem a h)
      have hbeq : (a == '.') = false := beq_eq_false_iff_ne.mpr ha
      simp [matchHere, beginsCI, ih hps, hbeq]

/-- On a pattern without the dot wildcard, unanchored regex search is exactly
literal case-insensitive substring search. -/
theorem searchFrom_eq_subFromCI (p : List Char) (hp : '.' ∉ p) :
    ∀ t : List Char, searchFrom p t = subFromCI p t := by
  intro t
  induction t with
  | nil => simp [searchFrom, subFromCI, matchHere_eq_beginsCI p hp]
  | cons c cs ih => simp [searchFrom, subFromCI, matchHere_eq_beginsCI p hp, ih]

/-- On a query without regex metacharacters (no dot in the modelled
fragment), the controller's regex test coincides with literal
case-insensitive substring containment. -/
theorem regexTest_eq_subCI (q s : String) (hq : '.' ∉ q.toList) :
    regexTest q s = subCI q s :=
  searchFrom_eq_subFromCI q.toList hq s.toList

/-! Claim theorems. -/

/-- C1 counterexample: on the malformed identifier "abc" (not a valid
ObjectId, so the lookup collaborator throws), `getEtudiantById` answers with
status 500, not with the Not Found outcome 404 the claim requires. -/
theorem getEtudiantById_malformed_counterexample :
    isValidObjectId "abc" = false ∧
    (getEtudiantById "abc" []).status = 500 ∧
    ¬ (getEtudiantById "abc" []).status = 404 := by
  refine ⟨rfl, rfl, ?_⟩
  decide

/-- C1 (amended): for every identifier whose format is malformed for the
store (the lookup collaborator throws a CastError), GetById is caught by the
error path and returns the 500 server-error envelope — never 404; the Not
Found outcome arises only from a well-formed identifier with no matching
record. -/
theorem getEtudiantById_malformed_500 (id : String) (store : List Etudiant)
    (h : isValidObjectId id = false) :
    (getEtudiantById id store).status = 500 ∧
    (getEtudiantById id store).success = false ∧
    (getEtudiantById id store).message = some "Erreur serveur" ∧
    ¬ (getEtudiantById id store).status = 404 := by
  simp [getEtudiantById, findByIdModel, h]

/-- C1 witness: the amended behavior at the concrete malformed identifier
"abc" against the empty store. -/
theorem getEtudiantById_malformed_500_witness :
    (getEtudiantById "abc" []).status = 500 ∧
    (getEtudiantById "abc" []).success = false ∧
    (getEtudiantById "abc" []).message = some "Erreur serveur" ∧
    ¬ (getEtudiantById "abc" []).status = 404 :=
  getEtudiantById_malformed_500 "abc" [] (by decide)

/-- C2 counterexample: with the query "." — a regex metacharacter — Search
returns an active record although "." is not a case-insensitive literal
substring of its nom or of its prenom: the match is a regex match, not the
literal substring match the claim states. -/
theorem searchEtudiants_regex_counterexample :
    (searchEtudiants (some ".")
        (.ok [⟨"507f1f77bcf86cd799439011", "x", "y", "m@x.com", "CS", 2020, 10, true⟩])).data
      = some [⟨"507f1f77bcf86cd799439011", "x", "y", "m@x.com", "CS", 2020, 10, true⟩] ∧
    subCI "." "x" = false ∧
    subCI "." "y" = false := by
  refine ⟨?_, rfl, rfl⟩
  rfl

/-- C2 (amended): Search matches actif-true records whose nom or prenom
passes the case-insensitive regex test of q; whenever q contains no regex
metacharacter (no dot, in the modelled literal-plus-dot fragment) this is
exactly case-insensitive literal substring matching on nom or prenom. -/
theorem searchEtudiants_literal_substring (q : String) (l : List Etudiant)
    (hq : q ≠ "") (hdot : '.' ∉ q.toList) :
    (searchEtudiants (some q) (.ok l)).status = 200 ∧
    (searchEtudiants (some q) (.ok l)).data
      = some (l.filter (fun e => e.actif && (subCI q e.nom || subCI q e.prenom))) := by
  have hmatch : ∀ e : Etudiant,
      searchMatch q e = (e.actif && (subCI q e.nom || subCI q e.prenom)) := by
    intro e
    simp [searchMatch, regexTest_eq_subCI _ _ hdot]
  constructor
  · simp [searchEtudiants, jsTruthy, hq]
  · simp only [searchEtudiants, jsTruthy]
    rw [if_neg (by simp [hq])]
    simp only [Option.getD_some]
    exact congrArg (fun d => some d) (List.filter_congr (fun e _ => hmatch e))

/-- C2 witness: the amended behavior at the concrete query "mar" — it finds
the active records named Martin and Marie case-insensitively and excludes an
inactive record that also matches. -/
theorem searchEtudiants_literal_substring_witness :
    (searchEtudiants (some "mar")
        (.ok [⟨"507f1f77bcf86cd799439011", "Martin", "Paul", "p@x.com", "CS", 2020, 10, true⟩,
              ⟨"507f1f77bcf86cd799439012", "Durand", "Marie", "m@x.com", "CS", 2021, 12, true⟩,
              ⟨"507f1f77bcf86cd799439013", "Marchand", "Luc", "l@x.com", "CS", 2022, 11, false⟩])).status = 200 ∧
    (searchEtudiants (some "mar")
        (.ok [⟨"507f1f77bcf86cd799439011", "Martin", "Paul", "p@x.com", "CS", 2020, 10, true⟩,
              ⟨"507f1f77bcf86cd799439012", "Durand", "Marie", "m@x.com", "CS", 2021, 12, true⟩,
              ⟨"507f1f77bcf86cd799439013", "Marchand", "Luc", "l@x.com", "CS", 2022, 11, false⟩])).data
      = some ([⟨"507f1f77bcf86cd799439011", "Martin", "Paul", "p@x.com", "CS", 2020, 10, true⟩,
               ⟨"507f1f77bcf86cd799439012", "Durand", "Marie", "m@x.com", "CS", 2021, 12, true⟩,
               ⟨"507f1f77bcf86cd799439013", "Marchand", "Luc", "l@x.com", "CS", 2022, 11, false⟩].filter
                 (fun e => e.actif && (subCI "mar" e.nom || subCI "mar" e.prenom))) :=
  searchEtudiants_literal_substring "mar" _ (by decide) (by decide)

/-- C9: whenever the query parameter q is absent or empty (falsy), Search
answers 400 with the required-parameter message, and the answer does not
depend on the store in any way — the persistence layer is not consulted on
this path. -/
theorem searchEtudiants_missing_q (q : Option String) (h : jsTruthy q = false) :
    (∀ s1 s2 : Except String (List Etudiant), searchEtudiants q s1 = searchEtudiants q s2) ∧
    (∀ s : Except String (List Etudiant),
      (searchEtudiants q s).status = 400 ∧
      (searchEtudiants q s).success = false ∧
      (searchEtudiants q s).message = some "Le paramètre de recherche q est obligatoire" ∧
      (searchEtudiants q s).data = none) := by
  constructor
  · intro s1 s2; simp [searchEtudiants, h]
  · intro s; simp [searchEtudiants, h]

/-- C9 witness: the absent query against two different store outcomes (a
populated store and a failing store) yields the same 400 response. -/
theorem searchEtudiants_missing_q_witness :
    searchEtudiants none (.ok [⟨"507f1f77bcf86cd799439011", "Martin", "Paul", "p@x.com", "CS", 2020, 10, true⟩])
      = searchEtudiants none (.error "connection lost") ∧
    (searchEtudiants none (.error "connection lost")).status = 400 ∧
    (searchEtudiants (some "") (.ok [])).status = 400 :=
  ⟨(searchEtudiants_missing_q none (by decide)).1 _ _,
   ((searchEtudiants_missing_q none (by decide)).2 _).1,
   ((searchEtudiants_missing_q (some "") (by decide)).2 _).1⟩

/-- C3: whenever some stored record matches the creation body's (nom, prenom)
pair exactly — whatever that record's email or actif value — Create answers
400 with the duplicate-name message and leaves the store untouched, for every
possible outcome of the insert call (which is never reached). -/
theorem createEtudiant_duplicate_nom_prenom (body : Etudiant) (store : List Etudiant)
    (ins : Except CreateErr Etudiant)
    (h : ∃ e ∈ store, e.nom = body.nom ∧ e.prenom = body.prenom) :
    (createEtudiant body store ins).1.status = 400 ∧
    (createEtudiant body store ins).1.success = false ∧
    (createEtudiant body store ins).1.message
      = some "Un étudiant avec ce nom et ce prénom existe déjà" ∧
    (createEtudiant body store ins).2 = store := by
  have hd : dupNomPrenom body store = true := by
    obtain ⟨e, he, h1, h2⟩ := h
    simp only [dupNomPrenom, List.any_eq_true]
    exact ⟨e, he, by simp [h1, h2]⟩
  simp [createEtudiant, hd]

/-- C3 witness: a body whose (nom, prenom) pair matches a stored record with
a different email and actif = false is rejected with 400 and the store stays
as it was, even though the insert outcome was a success value. -/
theorem createEtudiant_duplicate_nom_prenom_witness :
    (createEtudiant ⟨"", "Dupont", "Jean", "new@x.com", "CS", 2021, 14, true⟩
        [⟨"507f1f77bcf86cd799439011", "Dupont", "Jean", "old@x.com", "Math", 2019, 9, false⟩]
        (.ok ⟨"507f1f77bcf86cd799439022", "Dupont", "Jean", "new@x.com", "CS", 2021, 14, true⟩)).1.status = 400 ∧
    (createEtudiant ⟨"", "Dupont", "Jean", "new@x.com", "CS", 2021, 14, true⟩
        [⟨"507f1f77bcf86cd799439011", "Dupont", "Jean", "old@x.com", "Math", 2019, 9, false⟩]
        (.ok ⟨"507f1f77bcf86cd799439022", "Dupont", "Jean", "new@x.com", "CS", 2021, 14, true⟩)).1.success = false ∧
    (createEtudiant ⟨"", "Dupont", "Jean", "new@x.com", "CS", 2021, 14, true⟩
        [⟨"507f1f77bcf86cd799439011", "Dupont", "Jean", "old@x.com", "Math", 2019, 9, false⟩]
        (.ok ⟨"507f1f77bcf86cd799439022", "Dupont", "Jean", "new@x.com", "CS", 2021, 14, true⟩)).1.message
      = some "Un étudiant avec ce nom et ce prénom existe déjà" ∧
    (createEtudiant ⟨"", "Dupont", "Jean", "new@x.com", "CS", 2021, 14, true⟩
        [⟨"507f1f77bcf86cd799439011", "Dupont", "Jean", "old@x.com", "Math", 2019, 9, false⟩]
        (.ok ⟨"507f1f77bcf86cd799439022", "Dupont", "Jean", "new@x.com", "CS", 2021, 14, true⟩)).2
      = [⟨"507f1f77bcf86cd799439011", "Dupont", "Jean", "old@x.com", "Math", 2019, 9, false⟩] :=
  createEtudiant_duplicate_nom_prenom _ _ _ (by decide)

/-- C4: when the duplicate pre-check passes and the insert call throws, the
handler inspects the error's code: code 11000 (the store's duplicate unique
key) yields 400 with the duplicate-email message and no error field; every
other thrown error yields 400 with the generic invalid-data message and the
underlying message verbatim in the error field. The store is unchanged in
both cases. -/
theorem createEtudiant_insert_error (body : Etudiant) (store : List Etudiant) (err : CreateErr)
    (hnodup : dupNomPrenom body store = false) :
    (err.code = some 11000 →
      (createEtudiant body store (.error err)).1.status = 400 ∧
      (createEtudiant body store (.error err)).1.message = some "Cet email existe déjà" ∧
      (createEtudiant body store (.error err)).1.error = none) ∧
    (¬ err.code = some 11000 →
      (createEtudiant body store (.error err)).1.status = 400 ∧
      (createEtudiant body store (.error err)).1.message = some "Données invalides" ∧
      (createEtudiant body store (.error err)).1.error = some err.message) ∧
    (createEtudiant body store (.error err)).2 = store := by
  refine ⟨fun hc => ?_, fun hc => ?_, ?_⟩
  · simp [createEtudiant, hnodup, hc]
  · simp [createEtudiant, hnodup, hc]
  · by_cases hc : err.code = some 11000 <;> simp [createEtudiant, hnodup, hc]

/-- C4 witness: against an empty store (so the pre-check passes), the
duplicate-key error code 11000 produces the duplicate-email 400 with no
error detail, and a generic validation error surfaces its message verbatim. -/
theorem createEtudiant_insert_error_witness :
    ((createEtudiant ⟨"", "Martin", "Alice", "a@x.com", "CS", 2022, 15, true⟩ []
        (.error ⟨some 11000, "E11000 duplicate key"⟩)).1.message = some "Cet email existe déjà" ∧
     (createEtudiant ⟨"", "Martin", "Alice", "a@x.com", "CS", 2022, 15, true⟩ []
        (.error ⟨some 11000, "E11000 duplicate key"⟩)).1.error = none) ∧
    ((createEtudiant ⟨"", "Martin", "Alice", "a@x.com", "CS", 2022, 15, true⟩ []
        (.error ⟨none, "annee must be a number"⟩)).1.message = some "Données invalides" ∧
     (createEtudiant ⟨"", "Martin", "Alice", "a@x.com", "CS", 2022, 15, true⟩ []
        (.error ⟨none, "annee must be a number"⟩)).1.error = some "annee must be a number") :=
  ⟨⟨((createEtudiant_insert_error _ [] ⟨some 11000, "E11000 duplicate key"⟩ (by decide)).1 rfl).2.1,
    ((createEtudiant_insert_error _ [] ⟨some 11000, "E11000 duplicate key"⟩ (by decide)).1 rfl).2.2⟩,
   ⟨((createEtudiant_insert_error _ [] ⟨none, "annee must be a number"⟩ (by decide)).2.1 (by decide)).2.1,
    ((createEtudiant_insert_error _ [] ⟨none, "annee must be a number"⟩ (by decide)).2.1 (by decide)).2.2⟩⟩

/-- C8: GetByProgram returns exactly the stored records whose filiere equals
the requested value — with no actif condition, so a record is in the result
if and only if it is stored and matches the filiere, whether it is active or
inactive — and counts them in count. -/
theorem getEtudiantsByFiliere_spec (v : String) (l : List Etudiant) :
    (getEtudiantsByFiliere v (.ok l)).status = 200 ∧
    (getEtudiantsByFiliere v (.ok l)).filiere = some v ∧
    (getEtudiantsByFiliere v (.ok l)).data = some (l.filter (fun e => e.filiere == v)) ∧
    (getEtudiantsByFiliere v (.ok l)).count = some (l.filter (fun e => e.filiere == v)).length ∧
    (∀ e : Etudiant, e ∈ l.filter (fun e => e.filiere == v) ↔ (e ∈ l ∧ e.filiere = v)) := by
  refine ⟨rfl, rfl, rfl, rfl, fun e => ?_⟩
  simp [List.mem_filter]

/-- C8 witness: a store holding an active and an inactive CS record and an
active Math record — GetByProgram "CS" returns both CS records, the inactive
one included, and count 2. -/
theorem getEtudiantsByFiliere_spec_witness :
    (getEtudiantsByFiliere "CS"
        (.ok [⟨"507f1f77bcf86cd799439011", "Dupont", "Jean", "j@x.com", "CS", 2021, 14, true⟩,
              ⟨"507f1f77bcf86cd799439012", "Martin", "Alice", "a@x.com", "Math", 2022, 16, true⟩,
              ⟨"507f1f77bcf86cd799439013", "Durand", "Luc", "l@x.com", "CS", 2020, 11, false⟩])).data
      = some [⟨"507f1f77bcf86cd799439011", "Dupont", "Jean", "j@x.com", "CS", 2021, 14, true⟩,
              ⟨"507f1f77bcf86cd799439013", "Durand", "Luc", "l@x.com", "CS", 2020, 11, false⟩] ∧
    (getEtudiantsByFiliere "CS"
        (.ok [⟨"507f1f77bcf86cd799439011", "Dupont", "Jean", "j@x.com", "CS", 2021, 14, true⟩,
              ⟨"507f1f77bcf86cd799439012", "Martin", "Alice", "a@x.com", "Math", 2022, 16, true⟩,
              ⟨"507f1f77bcf86cd799439013", "Durand", "Luc", "l@x.com", "CS", 2020, 11, false⟩])).count
      = some 2 :=
  ⟨by
    have h := (getEtudiantsByFiliere_spec "CS"
      [⟨"507f1f77bcf86cd799439011", "Dupont", "Jean", "j@x.com", "CS", 2021, 14, true⟩,
       ⟨"507f1f77bcf86cd799439012", "Martin", "Alice", "a@x.com", "Math", 2022, 16, true⟩,
       ⟨"507f1f77bcf86cd799439013", "Durand", "Luc", "l@x.com", "CS", 2020, 11, false⟩]).2.2.1
    rw [h]; rfl,
   by
    have h := (getEtudiantsByFiliere_spec "CS"
      [⟨"507f1f77bcf86cd799439011", "Dupont", "Jean", "j@x.com", "CS", 2021, 14, true⟩,
       ⟨"507f1f77bcf86cd799439012", "Martin", "Alice", "a@x.com", "Math", 2022, 16, true⟩,
       ⟨"507f1f77bcf86cd799439013", "Durand", "Luc", "l@x.com", "CS", 2020, 11, false⟩]).2.2.2.1
    rw [h]; rfl⟩

/-- C10: AdvancedSearch has no 400 path and validates nothing: for every
combination of inputs (non-numeric bounds included) its status is 200 when
the persistence call succeeds and 500 exactly when the persistence call
itself fails — never anything else. -/
theorem advancedSearch_no_400 (q : AdvQuery) (store : Except String (List Etudiant)) :
    ((advancedSearch q store).status = 200 ∨ (advancedSearch q store).status = 500) ∧
    ((advancedSearch q store).status = 500 ↔ ∃ msg, store = .error msg) ∧
    (∀ l : List Etudiant, store = .ok l →
      (advancedSearch q store).status = 200 ∧ (advancedSearch q store).success = true) ∧
    ¬ (advancedSearch q store).status = 400 := by
  cases store <;> simp [advancedSearch]

/-- C10 witness: the non-numeric bound "abc" parses to NaN (modelled none),
yet AdvancedSearch still answers 200 on a successful store call, and 500 on
a failing one. -/
theorem advancedSearch_no_400_witness :
    jsParseInt "abc" = none ∧
    (advancedSearch ⟨none, none, some "abc", none, none⟩ (.ok [])).status = 200 ∧
    (advancedSearch ⟨none, none, some "abc", none, some "xyz"⟩ (.error "boom")).status = 500 :=
  ⟨by decide,
   ((advancedSearch_no_400 ⟨none, none, some "abc", none, none⟩ (.ok [])).2.2.1 [] rfl).1,
   (advancedSearch_no_400 ⟨none, none, some "abc", none, some "xyz"⟩ (.error "boom")).2.1.mpr
     ⟨"boom", rfl⟩⟩

/-- The soft-delete update on a store that contains the identifier: it
returns the first matching document with actif forced to false, replaces it
in place, and running the same update again on the updated store yields the
very same document and the very same store. -/
theorem updActifFalse_spec (id : String) :
    ∀ s : List Etudiant, (∃ e ∈ s, e.id = id) →
      ∃ e s2, findByIdAndUpdateActifFalse id s = (some e, s2) ∧
        e.actif = false ∧ e.id = id ∧
        findByIdAndUpdateActifFalse id s2 = (some e, s2) := by
  intro s
  induction s with
  | nil => rintro ⟨e, he, _⟩; cases he
  | cons a as ih =>
    rintro ⟨e, he, hid⟩
    by_cases ha : a.id = id
    · refine ⟨{ a with actif := false }, { a with actif := false } :: as, ?_, rfl, ha, ?_⟩
      · simp [findByIdAndUpdateActifFalse, ha]
      · simp [findByIdAndUpdateActifFalse, ha]
    · have he2 : e ∈ as := by
        rcases List.mem_cons.mp he with h | h
        · exact absurd (h ▸ hid) ha
        · exact h
      obtain ⟨e2, s2, h1, h2, h3, h4⟩ := ih ⟨e, he2, hid⟩
      refine ⟨e2, a :: s2, ?_, h2, h3, ?_⟩
      · simp [findByIdAndUpdateActifFalse, ha, h1]
      · simp [findByIdAndUpdateActifFalse, ha, h4]

/-- C7: SoftDelete is idempotent. On any well-formed identifier bound to a
stored record, the first call answers 200 with the record's actif forced to
false regardless of its previous value; calling SoftDelete again on the same
identifier answers the identical 200 response (actif still false) and leaves
the store exactly as after the first call. -/
theorem deleteEtudiant_idempotent (id : String) (store : List Etudiant)
    (hid : isValidObjectId id = true) (h : ∃ e ∈ store, e.id = id) :
    (deleteEtudiant id store).1.status = 200 ∧
    (deleteEtudiant id store).1.message = some "Étudiant désactivé avec succès" ∧
    (∀ e, (deleteEtudiant id store).1.record = some e → e.actif = false) ∧
    (deleteEtudiant id (deleteEtudiant id store).2).1 = (deleteEtudiant id store).1 ∧
    (deleteEtudiant id (deleteEtudiant id store).2).2 = (deleteEtudiant id store).2 := by
  obtain ⟨e, s2, h1, h2, h3, h4⟩ := updActifFalse_spec id store h
  have d1 : deleteEtudiant id store
      = ({ status := 200, success := true,
           message := some "Étudiant désactivé avec succès", record := some e }, s2) := by
    simp [deleteEtudiant, hid, h1]
  have d2 : deleteEtudiant id s2
      = ({ status := 200, success := true,
           message := some "Étudiant désactivé avec succès", record := some e }, s2) := by
    simp [deleteEtudiant, hid, h4]
  rw [d1]
  refine ⟨rfl, rfl, ?_, ?_, ?_⟩
  · intro e2 he2
    have : e = e2 := by injection he2
    exact this ▸ h2
  · show (deleteEtudiant id s2).1 = _
    rw [d2]
  · show (deleteEtudiant id s2).2 = _
    rw [d2]

/-- C7 witness: soft-deleting a concrete active record twice — first call
200 with actif false, second call identical response and identical store. -/
theorem deleteEtudiant_idempotent_witness :
    (deleteEtudiant "507f1f77bcf86cd799439011"
        [⟨"507f1f77bcf86cd799439011", "Dupont", "Jean", "j@x.com", "CS", 2021, 14, true⟩]).1.status = 200 ∧
    (deleteEtudiant "507f1f77bcf86cd799439011"
        [⟨"507f1f77bcf86cd799439011", "Dupont", "Jean", "j@x.com", "CS", 2021, 14, true⟩]).1.message
      = some "Étudiant désactivé avec succès" ∧
    (∀ e, (deleteEtudiant "507f1f77bcf86cd799439011"
        [⟨"507f1f77bcf86cd799439011", "Dupont", "Jean", "j@x.com", "CS", 2021, 14, true⟩]).1.record = some e →
      e.actif = false) ∧
    (deleteEtudiant "507f1f77bcf86cd799439011"
        (deleteEtudiant "507f1f77bcf86cd799439011"
          [⟨"507f1f77bcf86cd799439011", "Dupont", "Jean", "j@x.com", "CS", 2021, 14, true⟩]).2).1
      = (deleteEtudiant "507f1f77bcf86cd799439011"
          [⟨"507f1f77bcf86cd799439011", "Dupont", "Jean", "j@x.com", "CS", 2021, 14, true⟩]).1 ∧
    (deleteEtudiant "507f1f77bcf86cd799439011"
        (deleteEtudiant "507f1f77bcf86cd799439011"
          [⟨"507f1f77bcf86cd799439011", "Dupont", "Jean", "j@x.com", "CS", 2021, 14, true⟩]).2).2
      = (deleteEtudiant "507f1f77bcf86cd799439011"
          [⟨"507f1f77bcf86cd799439011", "Dupont", "Jean", "j@x.com", "CS", 2021, 14, true⟩]).2 :=
  deleteEtudiant_idempotent "507f1f77bcf86cd799439011" _ (by decide) (by decide)

/-- Transitivity of the modelled store sort comparison. -/
theorem mle_trans : ∀ a b c : MVal, mle a b = true → mle b c = true → mle a c = true := by
  intro a b c
  cases a <;> cases b <;> cases c <;>
    simp [mle, MVal.rank] <;>
    first
      | omega
      | exact fun h1 h2 => le_trans h1 h2
      | (rename_i x y z; revert x y z; decide)

/-- Totality of the modelled store sort comparison. -/
theorem mle_total : ∀ a b : MVal, (mle a b || mle b a) = true := by
  intro a b
  cases a <;> cases b <;>
    simp [mle, MVal.rank] <;>
    first
      | omega
      | exact le_total _ _
      | (rename_i x y; revert x y; decide)

/-- C6: GetSorted applies no sort criterion when sortBy is absent or empty
(store default order of the active records), and when sortBy names a field it
returns a permutation of the active records that is pairwise ordered on that
field — descending exactly when order is the token "desc", ascending for
every other order value, absent included. -/
theorem getEtudiantsSorted_spec (sortBy order : Option String) (l : List Etudiant) :
    (getEtudiantsSorted sortBy order (.ok l)).status = 200 ∧
    (getEtudiantsSorted sortBy order (.ok l)).sortBy = sortBy ∧
    (getEtudiantsSorted sortBy order (.ok l)).order = order ∧
    (jsTruthy sortBy = false →
      (getEtudiantsSorted sortBy order (.ok l)).data = some (l.filter (fun e => e.actif))) ∧
    (∀ f, sortBy = some f → jsTruthy sortBy = true →
      ∃ d, (getEtudiantsSorted sortBy order (.ok l)).data = some d ∧
        d.Perm (l.filter (fun e => e.actif)) ∧
        (order = some "desc" →
          d.Pairwise (fun a b => mle (fieldKey f b) (fieldKey f a) = true)) ∧
        (¬ order = some "desc" →
          d.Pairwise (fun a b => mle (fieldKey f a) (fieldKey f b) = true))) := by
  refine ⟨rfl, rfl, rfl, fun h => ?_, fun f hf ht => ?_⟩
  · simp [getEtudiantsSorted, buildSortOptions, h, applySort]
  · subst hf
    by_cases ho : order = some "desc"
    · refine ⟨(l.filter (fun e => e.actif)).mergeSort
          (fun a b => mle (fieldKey f b) (fieldKey f a)), ?_, ?_, fun _ => ?_, fun hc => absurd ho hc⟩
      · simp [getEtudiantsSorted, buildSortOptions, ht, applySort, ho]
      · exact List.mergeSort_perm _ _
      · exact @List.sorted_mergeSort Etudiant
          (fun a b => mle (fieldKey f b) (fieldKey f a))
          (fun a b c h1 h2 => mle_trans _ _ _ h2 h1)
          (fun a b => mle_total (fieldKey f b) (fieldKey f a)) _
    · refine ⟨(l.filter (fun e => e.actif)).mergeSort
          (fun a b => mle (fieldKey f a) (fieldKey f b)), ?_, ?_, fun hc => absurd hc ho, fun _ => ?_⟩
      · simp [getEtudiantsSorted, buildSortOptions, ht, applySort, ho]
      · exact List.mergeSort_perm _ _
      · exact @List.sorted_mergeSort Etudiant
          (fun a b => mle (fieldKey f a) (fieldKey f b))
          (fun a b c h1 h2 => mle_trans _ _ _ h1 h2)
          (fun a b => mle_total (fieldKey f a) (fieldKey f b)) _

/-- C6 witness: sorting a concrete store by moyenne descending — 200, and
the returned data is a permutation of the active records pairwise ordered by
descending moyenne. -/
theorem getEtudiantsSorted_spec_witness :
    (getEtudiantsSorted (some "moyenne") (some "desc")
        (.ok [⟨"507f1f77bcf86cd799439011", "Dupont", "Jean", "j@x.com", "CS", 2021, (29 : Rat)/2, true⟩,
              ⟨"507f1f77bcf86cd799439012", "Martin", "Alice", "a@x.com", "Math", 2022, 16, true⟩,
              ⟨"507f1f77bcf86cd799439013", "Durand", "Luc", "l@x.com", "CS", 2020, 18, false⟩])).status = 200 ∧
    ∃ d, (getEtudiantsSorted (some "moyenne") (some "desc")
        (.ok [⟨"507f1f77bcf86cd799439011", "Dupont", "Jean", "j@x.com", "CS", 2021, (29 : Rat)/2, true⟩,
              ⟨"507f1f77bcf86cd799439012", "Martin", "Alice", "a@x.com", "Math", 2022, 16, true⟩,
              ⟨"507f1f77bcf86cd799439013", "Durand", "Luc", "l@x.com", "CS", 2020, 18, false⟩])).data = some d ∧
      d.Perm ([⟨"507f1f77bcf86cd799439011", "Dupont", "Jean", "j@x.com", "CS", 2021, (29 : Rat)/2, true⟩,
               ⟨"507f1f77bcf86cd799439012", "Martin", "Alice", "a@x.com", "Math", 2022, 16, true⟩,
               ⟨"507f1f77bcf86cd799439013", "Durand", "Luc", "l@x.com", "CS", 2020, 18, false⟩].filter
                 (fun e => e.actif)) ∧
      d.Pairwise (fun a b => mle (fieldKey "moyenne" b) (fieldKey "moyenne" a) = true) := by
  refine ⟨(getEtudiantsSorted_spec (some "moyenne") (some "desc") _).1, ?_⟩
  obtain ⟨d, h1, h2, h3, _⟩ :=
    (getEtudiantsSorted_spec (some "moyenne") (some "desc")
      [⟨"507f1f77bcf86cd799439011", "Dupont", "Jean", "j@x.com", "CS", 2021, (29 : Rat)/2, true⟩,
       ⟨"507f1f77bcf86cd799439012", "Martin", "Alice", "a@x.com", "Math", 2022, 16, true⟩,
       ⟨"507f1f77bcf86cd799439013", "Durand", "Luc", "l@x.com", "CS", 2020, 18, false⟩]).2.2.2.2
      "moyenne" rfl (by decide)
  exact ⟨d, h1, h2, h3 rfl⟩

/-- The annee lower bound matches a stored value iff the bound parsed to a
real number that is at most the value (the NaN bound matches nothing). -/
theorem gteInt_iff (b : Option Int) (v : Int) :
    gteInt b v = true ↔ ∃ a, b = some a ∧ a ≤ v := by
  cases b <;> simp [gteInt]

/-- The annee upper bound matches a stored value iff the bound parsed to a
real number that is at least the value (the NaN bound matches nothing). -/
theorem lteInt_iff (b : Option Int) (v : Int) :
    lteInt b v = true ↔ ∃ a, b = some a ∧ v ≤ a := by
  cases b <;> simp [lteInt]

/-- The moyenne lower bound matches a stored value iff the bound parsed to a
real number that is at most the value (the NaN bound matches nothing). -/
theorem gteRat_iff (b : Option Rat) (v : Rat) :
    gteRat b v = true ↔ ∃ a, b = some a ∧ a ≤ v := by
  cases b <;> simp [gteRat]

/-- C5 counterexample: the nom filter of AdvancedSearch is a regex, not a
literal substring match — with nom = "." an active record whose nom is "b"
is returned although "." is not a case-insensitive substring of "b" or of
its prenom. -/
theorem advancedSearch_regex_counterexample :
    (advancedSearch ⟨some ".", none, none, none, none⟩
        (.ok [⟨"507f1f77bcf86cd799439011", "b", "c", "m@x.com", "CS", 2020, 10, true⟩])).data
      = some [⟨"507f1f77bcf86cd799439011", "b", "c", "m@x.com", "CS", 2020, 10, true⟩] ∧
    subCI "." "b" = false ∧
    subCI "." "c" = false := ⟨rfl, rfl, rfl⟩

/-- C5 (amended): AdvancedSearch builds a conjunctive filter holding exactly
the keys whose input is present and non-empty — nom as a case-insensitive
regex (a literal substring match only for metacharacter-free inputs),
filiere as an exact match, inclusive parsed bounds for anneeMin/anneeMax
(either alone) and moyenneMin — plus the implicit actif = true; absent or
empty inputs add no key, and a record matches the filter exactly when it is
active and satisfies every present condition. -/
theorem advancedSearch_conjunctive_filter (q : AdvQuery) (e : Etudiant) :
    (buildAdvancedFilter q).actif = true ∧
    ((buildAdvancedFilter q).nom.isSome ↔ jsTruthy q.nom = true) ∧
    ((buildAdvancedFilter q).filiere.isSome ↔ jsTruthy q.filiere = true) ∧
    ((buildAdvancedFilter q).annee.isSome ↔
      (jsTruthy q.anneeMin = true ∨ jsTruthy q.anneeMax = true)) ∧
    (∀ c, (buildAdvancedFilter q).annee = some c →
      ((c.gte.isSome ↔ jsTruthy q.anneeMin = true) ∧
       (c.lte.isSome ↔ jsTruthy q.anneeMax = true))) ∧
    ((buildAdvancedFilter q).moyenne.isSome ↔ jsTruthy q.moyenneMin = true) ∧
    (matchesFilter (buildAdvancedFilter q) e = true ↔
      (e.actif = true ∧
       (jsTruthy q.nom = true → regexTest (q.nom.getD "") e.nom = true) ∧
       (jsTruthy q.filiere = true → e.filiere = q.filiere.getD "") ∧
       (jsTruthy q.anneeMin = true →
         ∃ a, jsParseInt (q.anneeMin.getD "") = some a ∧ a ≤ e.annee) ∧
       (jsTruthy q.anneeMax = true →
         ∃ b, jsParseInt (q.anneeMax.getD "") = some b ∧ e.annee ≤ b) ∧
       (jsTruthy q.moyenneMin = true →
         ∃ m, jsParseFloat (q.moyenneMin.getD "") = some m ∧ m ≤ e.moyenne))) ∧
    (∀ l : List Etudiant, (advancedSearch q (.ok l)).data
      = some (l.filter (matchesFilter (buildAdvancedFilter q)))) := by
  refine ⟨rfl, ?_, ?_, ?_, ?_, ?_, ?_, fun l => rfl⟩
  · cases h1 : jsTruthy q.nom <;> simp [buildAdvancedFilter, h1]
  · cases h2 : jsTruthy q.filiere <;> simp [buildAdvancedFilter, h2]
  · cases h3 : jsTruthy q.anneeMin <;> cases h4 : jsTruthy q.anneeMax <;>
      simp [buildAdvancedFilter, h3, h4]
  · intro c hc
    cases h3 : jsTruthy q.anneeMin <;> cases h4 : jsTruthy q.anneeMax <;>
      simp [buildAdvancedFilter, h3, h4] at hc <;> subst hc <;> simp [h3, h4]
  · cases h5 : jsTruthy q.moyenneMin <;> simp [buildAdvancedFilter, h5]
  · cases h1 : jsTruthy q.nom <;>
    cases h2 : jsTruthy q.filiere <;>
    cases h3 : jsTruthy q.anneeMin <;>
    cases h4 : jsTruthy q.anneeMax <;>
    cases h5 : jsTruthy q.moyenneMin <;>
      simp [buildAdvancedFilter, matchesFilter, h1, h2, h3, h4, h5,
            gteInt_iff, lteInt_iff, gteRat_iff, and_assoc]

/-- C5 witness: the amended filter behavior at a concrete query (nom "mar",
anneeMin "2020", moyenneMin absent) and a concrete active record — the
implicit actif key is true and the handler's data is the conjunctive filter
applied to the store. -/
theorem advancedSearch_conjunctive_filter_witness :
    (buildAdvancedFilter ⟨some "mar", none, some "2020", none, none⟩).actif = true ∧
    (advancedSearch ⟨some "mar", none, some "2020", none, none⟩
        (.ok [⟨"507f1f77bcf86cd799439011", "Martin", "Paul", "p@x.com", "CS", 2021, 14, true⟩])).data
      = some ([⟨"507f1f77bcf86cd799439011", "Martin", "Paul", "p@x.com", "CS", 2021, 14, true⟩].filter
          (matchesFilter (buildAdvancedFilter ⟨some "mar", none, some "2020", none, none⟩))) :=
  ⟨(advancedSearch_conjunctive_filter ⟨some "mar", none, some "2020", none, none⟩
      ⟨"507f1f77bcf86cd799439011", "Martin", "Paul", "p@x.com", "CS", 2021, 14, true⟩).1,
   (advancedSearch_conjunctive_filter ⟨some "mar", none, some "2020", none, none⟩
      ⟨"507f1f77bcf86cd799439011", "Martin", "Paul", "p@x.com", "CS", 2021, 14, true⟩).2.2.2.2.2.2.2
     [⟨"507f1f77bcf86cd799439011", "Martin", "Paul", "p@x.com", "CS", 2021, 14, true⟩]⟩
